import Mathlib

/-!
Shallow embedding of the clinic front-end's consultation/billing workflow
core, translated from the repository sources:

* the consultation workbench page (prescription line-item operations
  `addMedicine`, `updateDosage`, `removeMedicine`, `applyExperienceFormula`,
  patient selection `selectPatient`, fee aggregation `totalAmount`, and the
  multi-step save `saveConsultation`);
* the axios response interceptor handling 401 token refresh (`interceptOn401`
  from src/lib/api.ts);
* the `maskPhone` helper from the utility module.

JS numbers are modelled as rationals (ℚ); JS strings as Lean `String`.
A JS value that may be `null`/`undefined`/`NaN` is modelled as `Option`.
-/

namespace Clinic

/-- Notification type, mirroring the notification store's union
`success | error | warning | info`. -/
inductive NotificationType where
  | success
  | error
  | warning
  | info
deriving DecidableEq, Repr

/-- A notification as passed to `addNotification` ({type, title, message?}). -/
structure Notification where
  ntype : NotificationType
  title : String
  message : Option String
deriving DecidableEq, Repr

/-- Dispensing method union: internal | external_decoction |
external_concentrated. -/
inductive DispensingMethod where
  | internal
  | external_decoction
  | external_concentrated
deriving DecidableEq, Repr

/-- Pharmacy type union from the ExternalPharmacy interface:
decoction | concentrated. -/
inductive PharmacyType where
  | decoction
  | concentrated
deriving DecidableEq, Repr

/-- A medicine search result as consumed by `addMedicine`: {id, code, name,
unit, selling_price, current_stock, is_compound}. `selling_price` is a string
in the source, consumed only through `parseFloat(...) || 0`; we model the
parse's outcome: `none` for a failed parse (NaN), `some q` for the number. -/
structure Medicine where
  id : Nat
  code : String
  name : String
  unit : String
  selling_price : Option ℚ
  current_stock : Int
  is_compound : Bool
deriving DecidableEq, Repr

/-- A prescription line item (interface PrescriptionItem). Optional fields
`stock_quantity` and `is_compound` are absent on items created from an
experience formula. -/
structure PrescriptionItem where
  medicine_id : Nat
  medicine_name : String
  medicine_code : String
  dosage : ℚ
  unit : String
  unit_price : ℚ
  subtotal : ℚ
  stock_quantity : Option Int
  is_compound : Option Bool
deriving DecidableEq, Repr

/-- An additional ad-hoc charge {name, amount}. -/
structure AdditionalCharge where
  name : String
  amount : ℚ
deriving DecidableEq, Repr

/-- An external pharmacy {id, name, type, processing_fee, delivery_fee}. -/
structure ExternalPharmacy where
  id : Nat
  name : String
  ptype : PharmacyType
  processing_fee : ℚ
  delivery_fee : ℚ
deriving DecidableEq, Repr

/-- One item of an experience formula:
{medicine_id, medicine_name, medicine_code, dosage, unit}. -/
structure FormulaItem where
  medicine_id : Nat
  medicine_name : String
  medicine_code : String
  dosage : ℚ
  unit : String
deriving DecidableEq, Repr

/-- An experience formula {id, name, description, items}. -/
structure ExperienceFormula where
  id : Nat
  name : String
  description : String
  items : List FormulaItem
deriving DecidableEq, Repr

/-- The consultation form's nine free-text clinical fields. -/
structure ConsultationForm where
  chief_complaint : String
  present_illness : String
  inspection : String
  tongue_appearance : String
  pulse : String
  tcm_diagnosis : String
  syndrome_differentiation : String
  treatment_principle : String
  advice : String
deriving DecidableEq, Repr

/-- The empty consultation form (the initial state and the reset applied on
patient selection). -/
def emptyForm : ConsultationForm :=
  { chief_complaint := "", present_illness := "", inspection := "",
    tongue_appearance := "", pulse := "", tcm_diagnosis := "",
    syndrome_differentiation := "", treatment_principle := "", advice := "" }

/-- Prescription settings {total_doses, doses_per_day, days, name}. -/
structure PrescriptionSettings where
  total_doses : Nat
  doses_per_day : Nat
  days : Nat
  name : String
deriving DecidableEq, Repr

/-- Nested patient record of a queue entry (the fields `selectPatient`
reads). -/
structure PatientInfo where
  id : Nat
  name : String
  chart_number : String
  gender : String
  birth_date : String
  allergies : Option String
deriving DecidableEq, Repr

/-- A queue entry (interface QueuePatient): its `id` is the registration id. -/
structure QueuePatient where
  id : Nat
  queue_number : Nat
  patient : PatientInfo
deriving DecidableEq, Repr

/-- The consultation page's workflow state: the `useState` pieces of the page
plus the consultation store fields the workflow reads (current patient's
allergies and current registration id). -/
structure ConsultationState where
  prescriptionItems : List PrescriptionItem
  additionalCharges : List AdditionalCharge
  dispensingMethod : DispensingMethod
  externalPharmacies : List ExternalPharmacy
  selectedPharmacy : Option Nat
  prescriptionSettings : PrescriptionSettings
  consultationForm : ConsultationForm
  currentPatientAllergies : Option String
  currentRegistrationId : Option Nat
  showAllergyWarning : Bool
  allergyMessage : String
deriving DecidableEq, Repr

/-- The page's initial state: every list starts empty, dispensing method
internal, no pharmacy, default prescription settings, empty form, no patient
selected. -/
def initialState : ConsultationState :=
  { prescriptionItems := []
    additionalCharges := []
    dispensingMethod := DispensingMethod.internal
    externalPharmacies := []
    selectedPharmacy := none
    prescriptionSettings :=
      { total_doses := 7, doses_per_day := 3, days := 7, name := "處方" }
    consultationForm := emptyForm
    currentPatientAllergies := none
    currentRegistrationId := none
    showAllergyWarning := false
    allergyMessage := "" }

/-! ### String helpers (JS semantics) -/

/-- JS `String.prototype.toLowerCase` restricted to the character-wise map. -/
def toLowerStr (s : String) : String := ⟨s.toList.map Char.toLower⟩

/-- Substring search over character lists: does `needle` occur contiguously in
`hay`? -/
def hasSubstr (needle : List Char) : List Char → Bool
  | [] => needle.isEmpty
  | c :: rest => List.isPrefixOf needle (c :: rest) || hasSubstr needle rest

/-- JS `hay.includes(needle)`: substring containment. -/
def jsIncludes (hay needle : String) : Bool :=
  hasSubstr needle.toList hay.toList

/-! ### Prescription line-item operations -/

/-- The new line item `addMedicine` appends: dosage 1, unit price and subtotal
both `parseFloat(selling_price) || 0`. -/
def mkItemFromMedicine (m : Medicine) : PrescriptionItem :=
  { medicine_id := m.id
    medicine_name := m.name
    medicine_code := m.code
    dosage := 1
    unit := m.unit
    unit_price := m.selling_price.getD 0
    subtotal := m.selling_price.getD 0
    stock_quantity := some m.current_stock
    is_compound := some m.is_compound }

/-- The allergy test inside `addMedicine`: truthy `currentPatient?.allergies`
(a present, non-empty string) whose lower-cased text contains the lower-cased
medicine name. -/
def allergyHit (allergies : Option String) (m : Medicine) : Bool :=
  match allergies with
  | some a => a ≠ "" && jsIncludes (toLowerStr a) (toLowerStr m.name)
  | none => false

/-- Result of `addMedicine`: the successor state and the notifications it
emitted. -/
structure AddResult where
  state : ConsultationState
  notifications : List Notification
deriving DecidableEq, Repr

/-- `addMedicine` from the consultation page: duplicate-id guard (warning,
no-op), internal-dispensing zero-stock guard (error, no-op), allergy check
(warning modal, does not block), then append of the new item. -/
def addMedicine (s : ConsultationState) (m : Medicine) : AddResult :=
  if (s.prescriptionItems.find? fun item => item.medicine_id == m.id).isSome then
    { state := s
      notifications :=
        [{ ntype := NotificationType.warning, title := "藥品已存在",
           message := some "請直接修改劑量" }] }
  else if s.dispensingMethod = DispensingMethod.internal ∧ m.current_stock ≤ 0 then
    { state := s
      notifications :=
        [{ ntype := NotificationType.error, title := "庫存不足",
           message := some (m.name ++ " 庫存不足，無法開立") }] }
  else
    let afterWarn : ConsultationState :=
      if allergyHit s.currentPatientAllergies m then
        { s with
          allergyMessage := "警告：病患對 " ++ m.name ++ " 過敏！"
          showAllergyWarning := true }
      else s
    { state :=
        { afterWarn with
          prescriptionItems := s.prescriptionItems ++ [mkItemFromMedicine m] }
      notifications := [] }

/-- `updateDosage` from the consultation page: replace the dosage at `index`
and recompute that item's subtotal as dosage × unit_price; any other index is
untouched (an out-of-range index leaves the list unchanged, as the React state
setter is never reached). -/
def updateDosage : List PrescriptionItem → Nat → ℚ → List PrescriptionItem
  | [], _, _ => []
  | item :: rest, 0, d =>
      { item with dosage := d, subtotal := d * item.unit_price } :: rest
  | item :: rest, n + 1, d => item :: updateDosage rest n d

/-- Index-aware filter underlying `removeMedicine`
(`items.filter((_, i) => i !== index)`), carrying the running index `i`. -/
def removeMedicineAux (idx : Nat) : Nat → List PrescriptionItem → List PrescriptionItem
  | _, [] => []
  | i, item :: rest =>
      if i ≠ idx then item :: removeMedicineAux idx (i + 1) rest
      else removeMedicineAux idx (i + 1) rest

/-- `removeMedicine` from the consultation page: keep every item whose index
differs from `idx`. -/
def removeMedicine (items : List PrescriptionItem) (idx : Nat) : List PrescriptionItem :=
  removeMedicineAux idx 0 items

/-- The line item built from a formula item in `applyExperienceFormula`:
unit price and subtotal are initialised to 0. -/
def formulaToItem (it : FormulaItem) : PrescriptionItem :=
  { medicine_id := it.medicine_id
    medicine_name := it.medicine_name
    medicine_code := it.medicine_code
    dosage := it.dosage
    unit := it.unit
    unit_price := 0
    subtotal := 0
    stock_quantity := none
    is_compound := none }

/-- `applyExperienceFormula` from the consultation page: appends every formula
item to the current list (no duplicate check). -/
def applyExperienceFormula (items : List PrescriptionItem)
    (f : ExperienceFormula) : List PrescriptionItem :=
  items ++ f.items.map formulaToItem

/-- `selectPatient` from the consultation page: raises the allergy modal when
the patient record carries a truthy allergy text, stores the patient's
allergies and registration id, and clears the line items, additional charges,
dispensing method, pharmacy selection and consultation form. -/
def selectPatient (s : ConsultationState) (p : QueuePatient) : ConsultationState :=
  let warn : Bool :=
    match p.patient.allergies with
    | some a => a ≠ ""
    | none => false
  { s with
    showAllergyWarning := if warn then true else s.showAllergyWarning
    allergyMessage :=
      match p.patient.allergies with
      | some a => if a ≠ "" then a else s.allergyMessage
      | none => s.allergyMessage
    currentPatientAllergies := p.patient.allergies
    currentRegistrationId := some p.id
    prescriptionItems := []
    additionalCharges := []
    dispensingMethod := DispensingMethod.internal
    selectedPharmacy := none
    consultationForm := emptyForm }

/-! ### Fee aggregation (the derived totals block of the page) -/

/-- `medicineTotal`: reduce over the line items' subtotals starting at 0. -/
def medicineTotal (s : ConsultationState) : ℚ :=
  s.prescriptionItems.foldl (fun sum item => sum + item.subtotal) 0

/-- `additionalTotal`: reduce over the additional charges' amounts. -/
def additionalTotal (s : ConsultationState) : ℚ :=
  s.additionalCharges.foldl (fun sum c => sum + c.amount) 0

/-- `selectedPharmacyData`: the first pharmacy in the fetched list whose id
equals the selection (`find` returns undefined when none matches or nothing is
selected). -/
def selectedPharmacyData (s : ConsultationState) : Option ExternalPharmacy :=
  s.externalPharmacies.find? fun p => s.selectedPharmacy == some p.id

/-- `processingFee`: the selected pharmacy's processing fee when the dispensing
method differs from internal and the selection resolves, 0 otherwise. -/
def processingFee (s : ConsultationState) : ℚ :=
  if s.dispensingMethod ≠ DispensingMethod.internal then
    match selectedPharmacyData s with
    | some p => p.processing_fee
    | none => 0
  else 0

/-- `deliveryFee`: as `processingFee` but with the delivery fee. -/
def deliveryFee (s : ConsultationState) : ℚ :=
  if s.dispensingMethod ≠ DispensingMethod.internal then
    match selectedPharmacyData s with
    | some p => p.delivery_fee
    | none => 0
  else 0

/-- `totalAmount = medicineTotal + additionalTotal + processingFee +
deliveryFee`. -/
def totalAmount (s : ConsultationState) : ℚ :=
  medicineTotal s + additionalTotal s + processingFee s + deliveryFee s

/-! ### Multi-step save sequence (`saveConsultation`) -/

/-- One item of the prescription payload:
{medicine, dosage, unit, unit_price}. -/
structure PrescriptionPayloadItem where
  medicine : Nat
  dosage : ℚ
  unit : String
  unit_price : ℚ
deriving DecidableEq, Repr

/-- The network requests `saveConsultation` can issue, in the order the code
issues them: the consultation create POST, the conditional prescription create
POST, the registration end-consultation POST, and the queue refresh GET fired
by `fetchQueue()` on full success. -/
inductive ApiCall where
  | consultationCreate (registration : Nat) (form : ConsultationForm)
  | prescriptionCreate (consultation : Nat) (name : String)
      (total_doses doses_per_day days : Nat)
      (dispensing_method : DispensingMethod)
      (items : List PrescriptionPayloadItem)
      (external_pharmacy : Option Nat)
  | registrationComplete (registration : Nat)
  | queueFetch
deriving DecidableEq, Repr

/-- The backend's responses for one run of the save sequence:
`consultationResult` is `some id` when the consultation create succeeds with
that new consultation id and `none` when it throws; the two booleans are the
outcomes of the prescription create and the registration complete calls. -/
structure SaveEnv where
  consultationResult : Option Nat
  prescriptionOk : Bool
  completeOk : Bool
deriving DecidableEq, Repr

/-- What one run of `saveConsultation` produced: the requests issued in order,
the notifications added, and the resulting local state. -/
structure SaveResult where
  calls : List ApiCall
  notifications : List Notification
  state : ConsultationState
deriving DecidableEq, Repr

/-- The error notification when no patient/registration is selected. -/
def noPatientNotification : Notification :=
  { ntype := NotificationType.error, title := "請先選擇病患", message := none }

/-- The single generic error notification of the catch block. -/
def saveFailNotification : Notification :=
  { ntype := NotificationType.error, title := "儲存失敗",
    message := some "請檢查資料後重試" }

/-- The success notification. -/
def saveSuccessNotification : Notification :=
  { ntype := NotificationType.success, title := "診療記錄已儲存",
    message := some "病患已完成診療" }

/-- An item of the prescription payload as mapped from a line item. -/
def toPayloadItem (item : PrescriptionItem) : PrescriptionPayloadItem :=
  { medicine := item.medicine_id, dosage := item.dosage, unit := item.unit,
    unit_price := item.unit_price }

/-- The `external_pharmacy` field of the prescription payload: attached only
when the dispensing method is not internal and `selectedPharmacy` is truthy
(a non-null, non-zero id). -/
def payloadPharmacy (s : ConsultationState) : Option Nat :=
  match s.selectedPharmacy with
  | some pid =>
      if s.dispensingMethod ≠ DispensingMethod.internal ∧ pid ≠ 0 then some pid
      else none
  | none => none

/-- The prescription create call for consultation `cid` built from state `s`. -/
def mkPrescriptionCall (s : ConsultationState) (cid : Nat) : ApiCall :=
  ApiCall.prescriptionCreate cid s.prescriptionSettings.name
    s.prescriptionSettings.total_doses s.prescriptionSettings.doses_per_day
    s.prescriptionSettings.days s.dispensingMethod
    (s.prescriptionItems.map toPayloadItem) (payloadPharmacy s)

/-- The local state after a fully successful save: `clearConsultation()` plus
the explicit clears of line items, additional charges (and history). The
consultation form fields are not cleared on this path. -/
def clearedAfterSave (s : ConsultationState) : ConsultationState :=
  { s with
    prescriptionItems := []
    additionalCharges := []
    currentPatientAllergies := none
    currentRegistrationId := none }

/-- `saveConsultation` from the consultation page. Guard: a falsy current
registration id — null, or the number 0 (`if (!currentRegistrationId)`) —
fails immediately with an error notification and no request. Otherwise:
consultation create; if it throws, the catch adds the single generic error
notification and local state is untouched. On success, the prescription
create runs only when the line-item list is non-empty; then the registration
is completed; any throw lands in the same catch. On full success the success
notification is added, the transient state is cleared and the queue is
re-fetched. -/
def saveConsultation (s : ConsultationState) (env : SaveEnv) : SaveResult :=
  match s.currentRegistrationId with
  | none => { calls := [], notifications := [noPatientNotification], state := s }
  | some regId =>
    if regId = 0 then
      { calls := [], notifications := [noPatientNotification], state := s }
    else
    let ccall := ApiCall.consultationCreate regId s.consultationForm
    match env.consultationResult with
    | none =>
        { calls := [ccall], notifications := [saveFailNotification], state := s }
    | some cid =>
        if 0 < s.prescriptionItems.length then
          let pcall := mkPrescriptionCall s cid
          if env.prescriptionOk then
            if env.completeOk then
              { calls :=
                  [ccall, pcall, ApiCall.registrationComplete regId,
                   ApiCall.queueFetch]
                notifications := [saveSuccessNotification]
                state := clearedAfterSave s }
            else
              { calls := [ccall, pcall, ApiCall.registrationComplete regId]
                notifications := [saveFailNotification]
                state := s }
          else
            { calls := [ccall, pcall]
              notifications := [saveFailNotification]
              state := s }
        else
          if env.completeOk then
            { calls :=
                [ccall, ApiCall.registrationComplete regId, ApiCall.queueFetch]
              notifications := [saveSuccessNotification]
              state := clearedAfterSave s }
          else
            { calls := [ccall, ApiCall.registrationComplete regId]
              notifications := [saveFailNotification]
              state := s }

/-! ### Session/auth: the axios 401 response interceptor (src/lib/api.ts) -/

/-- The token slots of browser storage the interceptor touches. -/
structure AuthStorage where
  access_token : Option String
  refresh_token : Option String
deriving DecidableEq, Repr

/-- The failed request as the interceptor sees it: the response status (absent
when the request never got a response) and the `_retry` flag. -/
structure FailedRequest where
  status : Option Nat
  retryFlag : Bool
deriving DecidableEq, Repr

/-- How the interceptor disposes of the failed request: re-issue it once with
a bearer token, or reject the error to the caller. -/
inductive InterceptorOutcome where
  | retried (token : String)
  | rejected
deriving DecidableEq, Repr

/-- One run of the response interceptor: how many token-refresh POSTs it made,
what it did with the original request, the storage afterwards, and whether it
ended the session (redirect to /login). -/
structure InterceptorResult where
  refreshCalls : Nat
  outcome : InterceptorOutcome
  storage : AuthStorage
  sessionEnded : Bool
deriving DecidableEq, Repr

/-- The axios response-error interceptor. On a 401 whose request is not yet
flagged `_retry`: with a truthy stored refresh token (`if (refreshToken)` — a
present, non-empty string), one refresh call runs; on refresh success the new
access token is stored and the original request is retried (now flagged, so a
repeated 401 cannot refresh again); on refresh failure both tokens are cleared
and the browser is sent to /login. Without a truthy stored refresh token
(absent, or the falsy empty string), and on every non-401 or already-retried
error, the error is rejected unchanged. `refreshOutcome` is `some token` when
the refresh endpoint returns a new access token and `none` when the refresh
call throws. -/
def interceptOn401 (st : AuthStorage) (req : FailedRequest)
    (refreshOutcome : Option String) : InterceptorResult :=
  if req.status = some 401 ∧ req.retryFlag = false then
    match st.refresh_token with
    | some rt =>
        if rt = "" then
          { refreshCalls := 0, outcome := InterceptorOutcome.rejected,
            storage := st, sessionEnded := false }
        else
          match refreshOutcome with
          | some newAccess =>
              { refreshCalls := 1
                outcome := InterceptorOutcome.retried newAccess
                storage := { st with access_token := some newAccess }
                sessionEnded := false }
          | none =>
              { refreshCalls := 1
                outcome := InterceptorOutcome.rejected
                storage := { access_token := none, refresh_token := none }
                sessionEnded := true }
    | none =>
        { refreshCalls := 0, outcome := InterceptorOutcome.rejected,
          storage := st, sessionEnded := false }
  else
    { refreshCalls := 0, outcome := InterceptorOutcome.rejected,
      storage := st, sessionEnded := false }

/-! ### `maskPhone` (utility module) -/

/-- JS `'*'.repeat(count)`: a `RangeError` is thrown for a negative count,
otherwise the string repeated `count` times. -/
def jsRepeatStar (count : Int) : Except String String :=
  if count < 0 then Except.error "RangeError"
  else Except.ok (String.join (List.replicate count.toNat "*"))

/-- `maskPhone` from the utility module: a falsy or shorter-than-4 input is
returned unchanged; otherwise the first four characters, `'*'.repeat(length -
7)` and the last three characters are concatenated. The `Except` layer records
the exception `repeat` throws when `length - 7` is negative. -/
def maskPhone (phone : String) : Except String String :=
  if phone = "" ∨ phone.length < 4 then Except.ok phone
  else
    match jsRepeatStar ((phone.length : Int) - 7) with
    | Except.error e => Except.error e
    | Except.ok stars =>
        Except.ok ((phone.toList.take 4).asString ++ stars
          ++ (phone.toList.drop (phone.length - 3)).asString)

/-! ### Step relations for reachability of the line-item list -/

/-- One public operation of the claimed set: add medicine, update dosage,
remove by index, apply experience formula, clear on patient selection. -/
inductive Step : ConsultationState → ConsultationState → Prop
  | add (s : ConsultationState) (m : Medicine) : Step s (addMedicine s m).state
  | update (s : ConsultationState) (i : Nat) (d : ℚ) :
      Step s { s with prescriptionItems := updateDosage s.prescriptionItems i d }
  | remove (s : ConsultationState) (i : Nat) :
      Step s { s with prescriptionItems := removeMedicine s.prescriptionItems i }
  | formula (s : ConsultationState) (f : ExperienceFormula) :
      Step s { s with
               prescriptionItems := applyExperienceFormula s.prescriptionItems f }
  | select (s : ConsultationState) (p : QueuePatient) : Step s (selectPatient s p)

/-- The same operations with `applyExperienceFormula` left out. -/
inductive UStep : ConsultationState → ConsultationState → Prop
  | add (s : ConsultationState) (m : Medicine) : UStep s (addMedicine s m).state
  | update (s : ConsultationState) (i : Nat) (d : ℚ) :
      UStep s { s with prescriptionItems := updateDosage s.prescriptionItems i d }
  | remove (s : ConsultationState) (i : Nat) :
      UStep s { s with prescriptionItems := removeMedicine s.prescriptionItems i }
  | select (s : ConsultationState) (p : QueuePatient) : UStep s (selectPatient s p)

/-- The uniqueness invariant of the spec: at most one line item per medicine
id, i.e. the list of medicine ids has no duplicate. -/
def uniqueIds (items : List PrescriptionItem) : Prop :=
  (items.map PrescriptionItem.medicine_id).Nodup

instance (items : List PrescriptionItem) : Decidable (uniqueIds items) :=
  inferInstanceAs (Decidable (items.map PrescriptionItem.medicine_id).Nodup)

/-! ### Helper lemmas -/

/-- A left fold adding `f x` at each element is the starting value plus the
sum of the mapped list. -/
theorem foldl_add_eq_sum {α : Type} (f : α → ℚ) :
    ∀ (l : List α) (a : ℚ), l.foldl (fun sum x => sum + f x) a = a + (l.map f).sum
  | [], a => by simp
  | x :: rest, a => by
      rw [List.foldl_cons, foldl_add_eq_sum f rest (a + f x)]
      simp [add_assoc]

theorem updateDosage_length :
    ∀ (items : List PrescriptionItem) (i : Nat) (d : ℚ),
      (updateDosage items i d).length = items.length
  | [], _, _ => rfl
  | _ :: _, 0, _ => rfl
  | _ :: rest, n + 1, d => by
      simp [updateDosage, updateDosage_length rest n d]

theorem updateDosage_get_self :
    ∀ (items : List PrescriptionItem) (i : Nat) (d : ℚ) (it : PrescriptionItem),
      items.get? i = some it →
      (updateDosage items i d).get? i
        = some { it with dosage := d, subtotal := d * it.unit_price }
  | [], i, _, _, h => by simp [List.get?] at h
  | x :: rest, 0, d, it, h => by
      simp [List.get?] at h
      subst h
      rfl
  | x :: rest, n + 1, d, it, h => by
      simp only [List.get?] at h
      simpa only [updateDosage, List.get?] using
        updateDosage_get_self rest n d it h

theorem updateDosage_get_other :
    ∀ (items : List PrescriptionItem) (i j : Nat) (d : ℚ), j ≠ i →
      (updateDosage items i d).get? j = items.get? j
  | [], _, _, _, _ => rfl
  | x :: rest, 0, j, d, h => by
      cases j with
      | zero => exact absurd rfl h
      | succ k => rfl
  | x :: rest, n + 1, j, d, h => by
      cases j with
      | zero => rfl
      | succ k =>
          simpa only [updateDosage, List.get?] using
            updateDosage_get_other rest n k d (fun hk => h (by omega))

theorem updateDosage_map_medicine_id :
    ∀ (items : List PrescriptionItem) (i : Nat) (d : ℚ),
      (updateDosage items i d).map PrescriptionItem.medicine_id
        = items.map PrescriptionItem.medicine_id
  | [], _, _ => rfl
  | x :: rest, 0, d => rfl
  | x :: rest, n + 1, d => by
      simp [updateDosage, updateDosage_map_medicine_id rest n d]

theorem removeMedicineAux_gt :
    ∀ (l : List PrescriptionItem) (idx i : Nat), idx < i →
      removeMedicineAux idx i l = l
  | [], _, _, _ => rfl
  | x :: rest, idx, i, h => by
      have hne : i ≠ idx := by omega
      simp only [removeMedicineAux, if_pos hne]
      rw [removeMedicineAux_gt rest idx (i + 1) (by omega)]

theorem removeMedicineAux_le :
    ∀ (l : List PrescriptionItem) (idx i : Nat), i ≤ idx →
      removeMedicineAux idx i l
        = l.take (idx - i) ++ l.drop (idx - i + 1)
  | [], _, _, _ => by simp [removeMedicineAux]
  | x :: rest, idx, i, h => by
      by_cases heq : i = idx
      · subst heq
        have h0 : i - i = 0 := by omega
        simp only [removeMedicineAux, if_neg (by omega : ¬ i ≠ i), h0]
        rw [removeMedicineAux_gt rest i (i + 1) (by omega)]
        simp
      · have hlt : i < idx := by omega
        have hne : i ≠ idx := heq
        simp only [removeMedicineAux, if_pos hne]
        rw [removeMedicineAux_le rest idx (i + 1) (by omega)]
        have h1 : idx - i = (idx - (i + 1)) + 1 := by omega
        rw [h1]
        simp [List.take_succ_cons, List.drop_succ_cons]

/-- Closed form of `removeMedicine`: everything before the index, then
everything after it. -/
theorem removeMedicine_eq (items : List PrescriptionItem) (idx : Nat) :
    removeMedicine items idx = items.take idx ++ items.drop (idx + 1) := by
  simpa using removeMedicineAux_le items idx 0 (Nat.zero_le _)

/-- `removeMedicine` yields a sublist of the input. -/
theorem removeMedicine_sublist (items : List PrescriptionItem) (i : Nat) :
    List.Sublist (removeMedicine items i) items := by
  rw [removeMedicine_eq]
  have h1 : List.Sublist (items.drop (i + 1)) (items.drop i) := by
    have : items.drop (i + 1) = (items.drop i).drop 1 := by
      rw [List.drop_drop]
    rw [this]
    exact List.drop_sublist 1 (items.drop i)
  have h2 := List.Sublist.append_left h1 (items.take i)
  rwa [List.take_append_drop] at h2

/-! ### Concrete fixtures for witnesses and counterexamples -/

/-- Line item fixture: dosage 2 at unit price 10. -/
def itemA : PrescriptionItem :=
  { medicine_id := 1, medicine_name := "甘草", medicine_code := "GC",
    dosage := 2, unit := "g", unit_price := 10, subtotal := 20,
    stock_quantity := some 50, is_compound := some false }

/-- Line item fixture: dosage 3 at unit price 5. -/
def itemB : PrescriptionItem :=
  { medicine_id := 2, medicine_name := "當歸", medicine_code := "DG",
    dosage := 3, unit := "g", unit_price := 5, subtotal := 15,
    stock_quantity := some 30, is_compound := some false }

/-- External pharmacy fixture with processing fee 15 and delivery fee 25. -/
def pharmA : ExternalPharmacy :=
  { id := 1, name := "藥房A", ptype := PharmacyType.decoction,
    processing_fee := 15, delivery_fee := 25 }

/-- State fixture matching the spec's worked example: items worth 20 and 15,
one extra charge of 20, external decoction dispensing via `pharmA`. -/
def feeState : ConsultationState :=
  { initialState with
    prescriptionItems := [itemA, itemB]
    additionalCharges := [{ name := "診金", amount := 20 }]
    dispensingMethod := DispensingMethod.external_decoction
    externalPharmacies := [pharmA]
    selectedPharmacy := some 1 }

/-! ### C1 -/

/-- C1: the grand total equals the sum of all line-item subtotals plus the sum
of all additional-charge amounts plus the processing fee plus the delivery
fee; the two fees equal the selected pharmacy's configured fees exactly when
the dispensing method is not internal and the pharmacy selection resolves to a
pharmacy of the fetched list, and they are zero whenever the dispensing method
is internal (regardless of any prior pharmacy selection) or no selected
pharmacy resolves. -/
theorem c1_total_aggregation (s : ConsultationState) :
    totalAmount s
      = (s.prescriptionItems.map PrescriptionItem.subtotal).sum
        + (s.additionalCharges.map AdditionalCharge.amount).sum
        + processingFee s + deliveryFee s
    ∧ (s.dispensingMethod = DispensingMethod.internal →
        processingFee s = 0 ∧ deliveryFee s = 0)
    ∧ (∀ p : ExternalPharmacy,
        s.dispensingMethod ≠ DispensingMethod.internal →
        selectedPharmacyData s = some p →
        processingFee s = p.processing_fee ∧ deliveryFee s = p.delivery_fee)
    ∧ (selectedPharmacyData s = none →
        processingFee s = 0 ∧ deliveryFee s = 0) := by
  refine ⟨?_, ?_, ?_, ?_⟩
  · rw [totalAmount, medicineTotal, additionalTotal,
      foldl_add_eq_sum PrescriptionItem.subtotal,
      foldl_add_eq_sum AdditionalCharge.amount]
    ring
  · intro h
    simp [processingFee, deliveryFee, h]
  · intro p hm hp
    simp [processingFee, deliveryFee, hm, hp]
  · intro hp
    by_cases hm : s.dispensingMethod = DispensingMethod.internal
    · simp [processingFee, deliveryFee, hm]
    · simp [processingFee, deliveryFee, hm, hp]

/-- C1 witness: on the spec's worked example the fees are the pharmacy's 15
and 25 and the total is 95. -/
theorem c1_total_aggregation_witness :
    processingFee feeState = 15 ∧ deliveryFee feeState = 25
      ∧ totalAmount feeState = 95 := by
  have h := c1_total_aggregation feeState
  have hfees := h.2.2.1 pharmA (by decide) rfl
  have hp : pharmA.processing_fee = 15 := rfl
  have hd : pharmA.delivery_fee = 25 := rfl
  refine ⟨hp ▸ hfees.1, hd ▸ hfees.2, ?_⟩
  rw [h.1, hfees.1, hfees.2]
  show (List.map PrescriptionItem.subtotal [itemA, itemB]).sum
      + (List.map AdditionalCharge.amount [{ name := "診金", amount := 20 }]).sum
      + pharmA.processing_fee + pharmA.delivery_fee = 95
  simp [itemA, itemB, pharmA]
  norm_num

/-! ### C7 -/

/-- C7: `updateDosage` replaces the dosage at the given index and recomputes
that item's subtotal as dosage × unit price, for any rational dosage including
zero and negative values (the function is total, no input is rejected); every
other index is untouched and the length is preserved, so after any sequence of
`updateDosage` calls the updated item satisfies subtotal = dosage ×
unit_price. -/
theorem c7_updateDosage_subtotal (items : List PrescriptionItem) (i : Nat)
    (d : ℚ) (it : PrescriptionItem) (h : items.get? i = some it) :
    (updateDosage items i d).get? i
        = some { it with dosage := d, subtotal := d * it.unit_price }
    ∧ (∀ j, j ≠ i → (updateDosage items i d).get? j = items.get? j)
    ∧ (updateDosage items i d).length = items.length :=
  ⟨updateDosage_get_self items i d it h,
   fun j hj => updateDosage_get_other items i j d hj,
   updateDosage_length items i d⟩

/-- C7 witness: updating index 1 of a two-item list to the negative dosage -3
is accepted and stores subtotal -3 × 5 = -15; updating to dosage 0 stores
subtotal 0; index 0 is untouched. -/
theorem c7_updateDosage_subtotal_witness :
    (updateDosage [itemA, itemB] 1 (-3)).get? 1
        = some { itemB with dosage := -3, subtotal := (-3 : ℚ) * itemB.unit_price }
    ∧ (updateDosage [itemA, itemB] 1 (-3)).get? 0 = some itemA
    ∧ (updateDosage [itemA, itemB] 1 0).get? 1
        = some { itemB with dosage := 0, subtotal := (0 : ℚ) * itemB.unit_price } := by
  have h1 := c7_updateDosage_subtotal [itemA, itemB] 1 (-3) itemB rfl
  have h2 := c7_updateDosage_subtotal [itemA, itemB] 1 0 itemB rfl
  exact ⟨h1.1, h1.2.1 0 (by decide), h2.1⟩

/-! ### C8 -/

/-- C8: removing a valid index i from a line-item list of length n yields a
list of length n − 1 holding exactly the items before i followed by the items
after i, in their original relative order. -/
theorem c8_removeMedicine (items : List PrescriptionItem) (i : Nat)
    (h : i < items.length) :
    (removeMedicine items i).length = items.length - 1
    ∧ removeMedicine items i = items.take i ++ items.drop (i + 1) := by
  refine ⟨?_, removeMedicine_eq items i⟩
  rw [removeMedicine_eq]
  simp only [List.length_append, List.length_take, List.length_drop]
  omega

/-- C8 witness: removing index 0 of a two-item list leaves the one-item
remainder. -/
theorem c8_removeMedicine_witness :
    (removeMedicine [itemA, itemB] 0).length = 1
    ∧ removeMedicine [itemA, itemB] 0 = [itemB] := by
  have h := c8_removeMedicine [itemA, itemB] 0 (by decide)
  refine ⟨h.1, ?_⟩
  rw [h.2]
  rfl

/-! ### C10 -/

/-- C10: `maskPhone` is not total over non-empty inputs: for a phone string of
length 4, 5 or 6 the short-input guard does not fire and the repeat count
length − 7 is negative, so the computation throws a RangeError instead of
returning a masked string. -/
theorem c10_maskPhone_throws (p : String) (h4 : 4 ≤ p.length)
    (h6 : p.length ≤ 6) :
    maskPhone p = Except.error "RangeError" := by
  have hne : ¬(p = "" ∨ p.length < 4) := by
    rintro (h | h)
    · subst h; simp at h4
    · omega
  have hneg : ((p.length : Int) - 7) < 0 := by omega
  rw [maskPhone, if_neg hne, jsRepeatStar, if_pos hneg]

/-- C10 witness: the five-character phone string "12345" makes `maskPhone`
throw. -/
theorem c10_maskPhone_throws_witness :
    maskPhone "12345" = Except.error "RangeError" :=
  c10_maskPhone_throws "12345" (by decide) (by decide)

/-! ### C3 -/

/-- C3: `addMedicine` leaves the line-item list unchanged and emits exactly
one notification whenever a line item with the same medicine id already exists
or the dispensing method is internal and the medicine's stock is ≤ 0; in every
other case it appends exactly one new item — with dosage 1 and subtotal equal
to its unit price — after the unchanged existing items, and emits no
notification. -/
theorem c3_addMedicine (s : ConsultationState) (m : Medicine) :
    (((s.prescriptionItems.find? fun item => item.medicine_id == m.id).isSome
          = true
        ∨ (s.dispensingMethod = DispensingMethod.internal
            ∧ m.current_stock ≤ 0)) →
      (addMedicine s m).state.prescriptionItems = s.prescriptionItems
      ∧ (addMedicine s m).notifications.length = 1)
    ∧ ((s.prescriptionItems.find? fun item => item.medicine_id == m.id) = none →
       ¬(s.dispensingMethod = DispensingMethod.internal ∧ m.current_stock ≤ 0) →
      (addMedicine s m).state.prescriptionItems
          = s.prescriptionItems ++ [mkItemFromMedicine m]
      ∧ (mkItemFromMedicine m).dosage = 1
      ∧ (mkItemFromMedicine m).subtotal = (mkItemFromMedicine m).unit_price
      ∧ (addMedicine s m).notifications = []) := by
  constructor
  · rintro (hdup | hstock)
    · simp [addMedicine, hdup]
    · by_cases hdup : (s.prescriptionItems.find? fun item =>
          item.medicine_id == m.id).isSome = true
      · simp [addMedicine, hdup]
      · simp [addMedicine, hdup, hstock]
  · intro hdup hstock
    refine ⟨?_, rfl, rfl, ?_⟩ <;> simp [addMedicine, hdup, hstock]

/-- Fixture medicine: in stock, priced 7 per unit. -/
def medC : Medicine :=
  { id := 3, code := "CH", name := "柴胡", unit := "g",
    selling_price := some 7, current_stock := 12, is_compound := false }

/-- Fixture medicine with the same id as `itemA`'s medicine. -/
def medDup : Medicine :=
  { id := 1, code := "GC", name := "甘草", unit := "g",
    selling_price := some 10, current_stock := 50, is_compound := false }

/-- State fixture whose line-item list already holds `itemA` and `itemB`. -/
def twoItemState : ConsultationState :=
  { initialState with prescriptionItems := [itemA, itemB] }

/-- C3 witness: adding the duplicate medicine to the two-item state keeps the
list and emits one notification; adding the fresh in-stock medicine appends
exactly its new item with no notification. -/
theorem c3_addMedicine_witness :
    ((addMedicine twoItemState medDup).state.prescriptionItems
        = twoItemState.prescriptionItems
      ∧ (addMedicine twoItemState medDup).notifications.length = 1)
    ∧ ((addMedicine twoItemState medC).state.prescriptionItems
        = twoItemState.prescriptionItems ++ [mkItemFromMedicine medC]
      ∧ (mkItemFromMedicine medC).dosage = 1
      ∧ (mkItemFromMedicine medC).subtotal = (mkItemFromMedicine medC).unit_price
      ∧ (addMedicine twoItemState medC).notifications = []) :=
  ⟨(c3_addMedicine twoItemState medDup).1 (Or.inl rfl),
   (c3_addMedicine twoItemState medC).2 rfl (by decide)⟩

/-! ### C9 -/

/-- C9: on an add that passes the duplicate and stock guards, if the current
patient's recorded allergy text case-insensitively contains the medicine's
display name, the blocking allergy warning is raised and the item is still
appended to the line-item list — the warning never prevents the addition. -/
theorem c9_allergy_warning (s : ConsultationState) (m : Medicine)
    (hdup : (s.prescriptionItems.find? fun item => item.medicine_id == m.id)
        = none)
    (hstock : ¬(s.dispensingMethod = DispensingMethod.internal
        ∧ m.current_stock ≤ 0))
    (hall : allergyHit s.currentPatientAllergies m = true) :
    (addMedicine s m).state.showAllergyWarning = true
    ∧ (addMedicine s m).state.allergyMessage
        = "警告：病患對 " ++ m.name ++ " 過敏！"
    ∧ (addMedicine s m).state.prescriptionItems
        = s.prescriptionItems ++ [mkItemFromMedicine m] := by
  refine ⟨?_, ?_, ?_⟩ <;> simp [addMedicine, hdup, hstock, hall]

/-- State fixture: a patient allergic to "Penicillin, Aspirin" is selected,
list empty. -/
def allergyState : ConsultationState :=
  { initialState with currentPatientAllergies := some "Penicillin, Aspirin" }

/-- Fixture medicine whose lower-cased name occurs in the patient's allergy
text. -/
def medAsp : Medicine :=
  { id := 9, code := "ASP", name := "aspirin", unit := "g",
    selling_price := some 3, current_stock := 10, is_compound := false }

/-- C9 witness: adding aspirin for the allergic patient raises the warning and
still appends the item. -/
theorem c9_allergy_warning_witness :
    (addMedicine allergyState medAsp).state.showAllergyWarning = true
    ∧ (addMedicine allergyState medAsp).state.allergyMessage
        = "警告：病患對 " ++ medAsp.name ++ " 過敏！"
    ∧ (addMedicine allergyState medAsp).state.prescriptionItems
        = allergyState.prescriptionItems ++ [mkItemFromMedicine medAsp] :=
  c9_allergy_warning allergyState medAsp rfl (by decide) (by decide)

/-! ### C2 -/

/-- One uniqueness-preserving step keeps the medicine ids duplicate-free. -/
theorem uStep_preserves_uniqueIds {a b : ConsultationState} (h : UStep a b)
    (hu : uniqueIds a.prescriptionItems) : uniqueIds b.prescriptionItems := by
  cases h with
  | add m =>
      by_cases hdup : (a.prescriptionItems.find? fun item =>
          item.medicine_id == m.id).isSome = true
      · simpa [addMedicine, hdup] using hu
      · by_cases hstock : a.dispensingMethod = DispensingMethod.internal
            ∧ m.current_stock ≤ 0
        · simpa [addMedicine, hdup, hstock] using hu
        · have hnone : (a.prescriptionItems.find? fun item =>
              item.medicine_id == m.id) = none := by
            cases hfind : a.prescriptionItems.find? fun item =>
                item.medicine_id == m.id with
            | none => rfl
            | some x => exact absurd (by simp [hfind]) hdup
          have hnotin : m.id ∉ a.prescriptionItems.map
              PrescriptionItem.medicine_id := by
            intro hmem
            rcases List.mem_map.mp hmem with ⟨it, hit, hid⟩
            have hfalse := List.find?_eq_none.mp hnone it hit
            simp [hid] at hfalse
          have hitems : (addMedicine a m).state.prescriptionItems
              = a.prescriptionItems ++ [mkItemFromMedicine m] := by
            simp [addMedicine, hdup, hstock]
          rw [uniqueIds, hitems, List.map_append, List.nodup_append]
          refine ⟨hu, ?_, ?_⟩
          · simp
          · intro x hx hx2
            have hxid : x = m.id := by
              simpa [mkItemFromMedicine] using hx2
            exact hnotin (hxid ▸ hx)
  | update i d =>
      show uniqueIds (updateDosage a.prescriptionItems i d)
      rw [uniqueIds, updateDosage_map_medicine_id]
      exact hu
  | remove i =>
      show uniqueIds (removeMedicine a.prescriptionItems i)
      exact List.Nodup.sublist
        (List.Sublist.map PrescriptionItem.medicine_id
          (removeMedicine_sublist a.prescriptionItems i)) hu
  | select p =>
      show uniqueIds (selectPatient a p).prescriptionItems
      simp [uniqueIds, selectPatient]

/-- Experience-formula fixture holding the same medicine id twice. -/
def dupFormula : ExperienceFormula :=
  { id := 1, name := "雙倍方", description := ""
    items :=
      [{ medicine_id := 1, medicine_name := "甘草", medicine_code := "GC",
         dosage := 2, unit := "g" },
       { medicine_id := 1, medicine_name := "甘草", medicine_code := "GC",
         dosage := 3, unit := "g" }] }

/-- The state reached from the initial state by applying `dupFormula`. -/
def dupState : ConsultationState :=
  { initialState with
    prescriptionItems :=
      applyExperienceFormula initialState.prescriptionItems dupFormula }

/-- C2 counterexample: a state reachable from the initial state by one of the
claimed public operations — applying an experience formula — carries the same
medicine id on two line items, because `applyExperienceFormula` appends
without any duplicate check. -/
theorem c2_counterexample :
    Relation.ReflTransGen Step initialState dupState
    ∧ ¬ uniqueIds dupState.prescriptionItems :=
  ⟨Relation.ReflTransGen.single (Step.formula initialState dupFormula),
   by decide⟩

/-- C2 amended: for every state reachable via add medicine, update dosage,
remove by index and clear-on-patient-selection — i.e. every claimed public
operation except applying an experience formula — from a state whose line
items carry pairwise distinct medicine ids, the list still contains at most
one line item per medicine id. -/
theorem c2_unique_medicine_ids (s t : ConsultationState)
    (h0 : uniqueIds s.prescriptionItems)
    (h : Relation.ReflTransGen UStep s t) :
    uniqueIds t.prescriptionItems := by
  induction h with
  | refl => exact h0
  | tail _ hstep ih => exact uStep_preserves_uniqueIds hstep ih

/-- C2 witness: from the initial state, adding `medC` and then updating its
dosage keeps the medicine ids duplicate-free. -/
theorem c2_unique_medicine_ids_witness :
    uniqueIds ({ (addMedicine initialState medC).state with
      prescriptionItems :=
        updateDosage (addMedicine initialState medC).state.prescriptionItems 0
          4 } : ConsultationState).prescriptionItems :=
  c2_unique_medicine_ids initialState _ (by decide)
    (Relation.ReflTransGen.tail
      (Relation.ReflTransGen.single (UStep.add initialState medC))
      (UStep.update (addMedicine initialState medC).state 0 4))

/-! ### C4 -/

/-- C4: when the consultation-create step fails (on a truthy — non-null,
non-zero — current registration id, the only case in which that step runs at
all), the save sequence issues no prescription-create and no
registration-complete request (the only request made is the consultation
create), surfaces the single generic error notification, and leaves the whole
local workflow state — line items, additional charges and every consultation
form field — unchanged. -/
theorem c4_save_failure_aborts (s : ConsultationState) (env : SaveEnv)
    (r : Nat) (hreg : s.currentRegistrationId = some r) (hr : r ≠ 0)
    (hfail : env.consultationResult = none) :
    (saveConsultation s env).calls
        = [ApiCall.consultationCreate r s.consultationForm]
    ∧ (saveConsultation s env).notifications = [saveFailNotification]
    ∧ (saveConsultation s env).state = s := by
  refine ⟨?_, ?_, ?_⟩ <;> simp [saveConsultation, hreg, hr, hfail]

/-- State fixture with a selected registration and a filled form, ready to
save. -/
def readyState : ConsultationState :=
  { initialState with
    prescriptionItems := [itemA]
    additionalCharges := [{ name := "診金", amount := 20 }]
    currentRegistrationId := some 5
    consultationForm := { emptyForm with tcm_diagnosis := "肝鬱" } }

/-- Backend fixture where the consultation create throws. -/
def failEnv : SaveEnv :=
  { consultationResult := none, prescriptionOk := true, completeOk := true }

/-- C4 witness: on the ready state with a failing consultation create, only
that one request is made, the single generic error notification appears, and
the state is returned untouched. -/
theorem c4_save_failure_aborts_witness :
    (saveConsultation readyState failEnv).calls
        = [ApiCall.consultationCreate 5 readyState.consultationForm]
    ∧ (saveConsultation readyState failEnv).notifications
        = [saveFailNotification]
    ∧ (saveConsultation readyState failEnv).state = readyState :=
  c4_save_failure_aborts readyState failEnv 5 rfl (by decide) rfl

/-! ### C5 -/

/-- Does this request create a prescription? -/
def isPrescriptionCreate : ApiCall → Bool
  | ApiCall.prescriptionCreate _ _ _ _ _ _ _ _ => true
  | _ => false

/-- Backend fixture where every call succeeds, returning consultation id 10. -/
def okEnv : SaveEnv :=
  { consultationResult := some 10, prescriptionOk := true, completeOk := true }

/-- State fixture with a selected registration and no line items. -/
def emptyItemsState : ConsultationState :=
  { initialState with currentRegistrationId := some 1 }

/-- C5 counterexample: with a non-null registration id, an empty line-item
list and every call succeeding, the save sequence issues three requests —
consultation create, registration complete, and the queue re-fetch fired on
full success — not exactly two as claimed. -/
theorem c5_counterexample :
    emptyItemsState.currentRegistrationId = some 1
    ∧ emptyItemsState.prescriptionItems = []
    ∧ (saveConsultation emptyItemsState okEnv).calls.length = 3
    ∧ (saveConsultation emptyItemsState okEnv).calls.length ≠ 2 := by
  refine ⟨rfl, rfl, rfl, by decide⟩

/-- C5 amended: with a falsy registration id — null, or the falsy number 0 —
the save sequence issues no request at all and fails with a user-visible
error; with a truthy registration id and an empty line-item list the
prescription-create request is always skipped, and the requests issued are the
consultation create, then (if it succeeded) the registration complete, then
(if that succeeded too) the queue re-fetch — so a fully successful run issues
exactly these three, in that order. -/
theorem c5_save_empty_items (s : ConsultationState) (env : SaveEnv) :
    ((s.currentRegistrationId = none ∨ s.currentRegistrationId = some 0) →
      (saveConsultation s env).calls = []
      ∧ (saveConsultation s env).notifications = [noPatientNotification])
    ∧ (∀ r, s.currentRegistrationId = some r → r ≠ 0 →
        s.prescriptionItems = [] →
        (∀ c ∈ (saveConsultation s env).calls, isPrescriptionCreate c = false)
        ∧ (env.consultationResult = none →
            (saveConsultation s env).calls
              = [ApiCall.consultationCreate r s.consultationForm])
        ∧ (∀ cid, env.consultationResult = some cid →
            (env.completeOk = true →
              (saveConsultation s env).calls
                = [ApiCall.consultationCreate r s.consultationForm,
                   ApiCall.registrationComplete r, ApiCall.queueFetch])
            ∧ (env.completeOk = false →
              (saveConsultation s env).calls
                = [ApiCall.consultationCreate r s.consultationForm,
                   ApiCall.registrationComplete r]))) := by
  constructor
  · rintro (hreg | hreg) <;>
      exact ⟨by simp [saveConsultation, hreg], by simp [saveConsultation, hreg]⟩
  · intro r hreg hr hempty
    have hlen : ¬ 0 < s.prescriptionItems.length := by simp [hempty]
    refine ⟨?_, ?_, ?_⟩
    · intro c hc
      cases hres : env.consultationResult with
      | none =>
          simp [saveConsultation, hreg, hr, hres] at hc
          simp [hc, isPrescriptionCreate]
      | some cid =>
          cases hok : env.completeOk with
          | false =>
              simp [saveConsultation, hreg, hr, hres, hlen, hok] at hc
              rcases hc with h | h <;> simp [h, isPrescriptionCreate]
          | true =>
              simp [saveConsultation, hreg, hr, hres, hlen, hok] at hc
              rcases hc with h | h | h <;> simp [h, isPrescriptionCreate]
    · intro hres
      simp [saveConsultation, hreg, hr, hres]
    · intro cid hres
      constructor <;> intro hok <;>
        simp [saveConsultation, hreg, hr, hres, hlen, hok]

/-- C5 witness: on the empty-items state with the all-success backend, the
requests are exactly consultation create, registration complete and the queue
re-fetch, and none of them is a prescription create. -/
theorem c5_save_empty_items_witness :
    (saveConsultation emptyItemsState okEnv).calls
        = [ApiCall.consultationCreate 1 emptyItemsState.consultationForm,
           ApiCall.registrationComplete 1, ApiCall.queueFetch]
    ∧ (∀ c ∈ (saveConsultation emptyItemsState okEnv).calls,
        isPrescriptionCreate c = false) := by
  have h := (c5_save_empty_items emptyItemsState okEnv).2 1 rfl (by decide) rfl
  exact ⟨((h.2.2 10 rfl).1 rfl), h.1⟩

/-! ### C6 -/

/-- Storage fixture holding both tokens. -/
def fullStorage : AuthStorage :=
  { access_token := some "acc", refresh_token := some "ref" }

/-- Storage fixture with an access token but no refresh token. -/
def noRefreshStorage : AuthStorage :=
  { access_token := some "acc", refresh_token := none }

/-- A 401-failed request not yet flagged as retried. -/
def fresh401 : FailedRequest := { status := some 401, retryFlag := false }

/-- C6 counterexample: a 401 response on a not-yet-retried request runs no
token-refresh call at all when no refresh token is stored — the interceptor
just rejects the error — contradicting the claim that a single refresh call
runs for every such request. -/
theorem c6_counterexample :
    (interceptOn401 noRefreshStorage fresh401 none).refreshCalls = 0
    ∧ ¬ (interceptOn401 noRefreshStorage fresh401 none).refreshCalls = 1
    ∧ (interceptOn401 noRefreshStorage fresh401 none).outcome
        = InterceptorOutcome.rejected := by
  refine ⟨rfl, by decide, rfl⟩

/-- C6 amended: for every request failing with a 401 status and not already
flagged as retried, *provided a truthy (non-empty) refresh token is stored*, a
single token-refresh call runs; on refresh success the new access token is
stored and the original request is retried — and since a retried request
carries the retry flag, any request so flagged triggers no further refresh, so
the retry happens at most once; on refresh failure both tokens are cleared and
the session is ended. When no refresh token is stored, or the stored token is
the falsy empty string, no refresh call occurs and the error is rejected with
storage untouched. -/
theorem c6_interceptor (st : AuthStorage) (req : FailedRequest)
    (ro : Option String) (h401 : req.status = some 401)
    (hnr : req.retryFlag = false) :
    (∀ rt, st.refresh_token = some rt → rt ≠ "" →
      (interceptOn401 st req ro).refreshCalls = 1
      ∧ (∀ tok, ro = some tok →
          (interceptOn401 st req ro).outcome = InterceptorOutcome.retried tok
          ∧ (interceptOn401 st req ro).storage.access_token = some tok
          ∧ (interceptOn401 st req ro).storage.refresh_token = st.refresh_token
          ∧ (interceptOn401 st req ro).sessionEnded = false)
      ∧ (ro = none →
          (interceptOn401 st req ro).storage
            = { access_token := none, refresh_token := none }
          ∧ (interceptOn401 st req ro).sessionEnded = true
          ∧ (interceptOn401 st req ro).outcome = InterceptorOutcome.rejected))
    ∧ ((st.refresh_token = none ∨ st.refresh_token = some "") →
        (interceptOn401 st req ro).refreshCalls = 0
        ∧ (interceptOn401 st req ro).storage = st
        ∧ (interceptOn401 st req ro).sessionEnded = false
        ∧ (interceptOn401 st req ro).outcome = InterceptorOutcome.rejected)
    ∧ (∀ (st2 : AuthStorage) (req2 : FailedRequest) (ro2 : Option String),
        req2.retryFlag = true →
        (interceptOn401 st2 req2 ro2).refreshCalls = 0
        ∧ (interceptOn401 st2 req2 ro2).outcome
            = InterceptorOutcome.rejected) := by
  have hcond : req.status = some 401 ∧ req.retryFlag = false := ⟨h401, hnr⟩
  refine ⟨?_, ?_, ?_⟩
  · intro rt hrt hne
    refine ⟨?_, ?_, ?_⟩
    · cases ro <;> simp [interceptOn401, hcond, hrt, hne]
    · intro tok htok
      simp [interceptOn401, hcond, hrt, hne, htok]
    · intro htok
      simp [interceptOn401, hcond, hrt, hne, htok]
  · rintro (hrt | hrt) <;> simp [interceptOn401, hcond, hrt]
  · intro st2 req2 ro2 hflag
    have : ¬(req2.status = some 401 ∧ req2.retryFlag = false) := by
      simp [hflag]
    simp [interceptOn401, this]

/-- C6 witness: with both tokens stored, a fresh 401 triggers one refresh;
on a successful refresh the request is retried with the new token, on a failed
refresh the tokens are cleared and the session ends; the retried (flagged)
request triggers no further refresh. -/
theorem c6_interceptor_witness :
    (interceptOn401 fullStorage fresh401 (some "newAcc")).refreshCalls = 1
    ∧ (interceptOn401 fullStorage fresh401 (some "newAcc")).outcome
        = InterceptorOutcome.retried "newAcc"
    ∧ (interceptOn401 fullStorage fresh401 none).storage
        = { access_token := none, refresh_token := none }
    ∧ (interceptOn401 fullStorage fresh401 none).sessionEnded = true
    ∧ (interceptOn401 fullStorage
        { status := some 401, retryFlag := true } none).refreshCalls = 0 := by
  have h1 := c6_interceptor fullStorage fresh401 (some "newAcc") rfl rfl
  have h2 := c6_interceptor fullStorage fresh401 none rfl rfl
  have h1t := h1.1 "ref" rfl (by decide)
  have h2t := h2.1 "ref" rfl (by decide)
  refine ⟨h1t.1, (h1t.2.1 "newAcc" rfl).1,
    (h2t.2.2 rfl).1, (h2t.2.2 rfl).2.1,
    (h1.2.2 fullStorage { status := some 401, retryFlag := true } none rfl).1⟩

end Clinic
